import Mathlib

/-!
Shallow embedding of `ignite/distributed/launcher.py` (class `Parallel`).

The launcher is pure configuration logic around an external runtime
collaborator (`idist`): we model every collaborator call and every log
line as an `Event` in an explicit trace, and every Python `ValueError`
raised during configuration as a structured `LauncherError`.
-/

namespace Ignite

/-- A Python value appearing in the spawn-parameter dictionary. -/
inductive PyVal where
  | int (n : Int)
  | str (s : String)
  deriving DecidableEq, Repr

/-- The `ValueError`s raised by `Parallel.__init__` / `_setup_spawn_params`,
one constructor per `raise` site, carrying the data interpolated into the
Python message. -/
inductive LauncherError where
  | unknownBackend (backend : String) (available : List String)
  | backendNoneArgGiven (name : String) (value : PyVal)
  | nprocNotPositive (n : Int)
  | nnodesNotPositive (n : Int)
  | nodeRankRequired
  | nodeRankOutOfRange (maxRank given : Int)
  | masterAddrPortRequired (addr : Option String) (port : Option Int)
  deriving DecidableEq, Repr

/-- Observable actions: calls into the `idist` runtime collaborator, log
lines, and the invocation of the user entry point. -/
inductive Event where
  | availableBackends
  | spawn (backend : Option String) (params : List (String × PyVal))
  | initGroup (backend : String)
  | finalizeGroup
  | getWorldSize
  | getLocalRank
  | logInfo (msg : String)
  | callFunc (localRank : Int)
  deriving DecidableEq, Repr

def Event.isInitGroup : Event → Bool
  | .initGroup _ => true
  | _ => false

def Event.isFinalizeGroup : Event → Bool
  | .finalizeGroup => true
  | _ => false

def Event.isSpawn : Event → Bool
  | .spawn _ _ => true
  | _ => false

def Event.isCallFunc : Event → Bool
  | .callFunc _ => true
  | _ => false

/-- A group action on the process-wide communication group. -/
def Event.isGroupAction (e : Event) : Bool :=
  e.isInitGroup || e.isFinalizeGroup

/-- A call into the runtime collaborator other than `available_backends`
(the "distributed actions": spawn, group init/finalize, world-size and
local-rank queries). -/
def Event.isDistributedAction (e : Event) : Bool :=
  e.isSpawn || e.isGroupAction || e == .getWorldSize || e == .getLocalRank

/-- The ambient runtime collaborator state visible to the launcher. -/
structure Runtime where
  available_backends : List String
  world_size : Int
  local_rank : Int

/-- Python `dict.update` with a single key/value pair: replace in place if
the key exists, else append. -/
def dictUpdate (d : List (String × Option PyVal)) (kv : String × Option PyVal) :
    List (String × Option PyVal) :=
  if d.any (fun p => p.1 = kv.1) then
    d.map (fun p => if p.1 = kv.1 then (p.1, kv.2) else p)
  else d ++ [kv]

/-- Python `params.update(spawn_kwargs)`. -/
def dictUpdateAll (d : List (String × Option PyVal))
    (kws : List (String × Option PyVal)) : List (String × Option PyVal) :=
  kws.foldl dictUpdate d

/-- Python `{k: v for k, v in params.items() if v is not None}`. -/
def dropNone (d : List (String × Option PyVal)) : List (String × PyVal) :=
  d.filterMap (fun p => p.2.map (fun v => (p.1, v)))

/-- `Parallel._setup_spawn_params`, line for line. -/
def setup_spawn_params (nproc_per_node : Int) (nnodes node_rank : Option Int)
    (master_addr : Option String) (master_port : Option Int)
    (spawn_kwargs : List (String × Option PyVal)) :
    Except LauncherError (List (String × PyVal)) :=
  -- the Python rebindings `nnodes = 1` / `node_rank = 0` are inlined as
  -- `nnodes.getD 1` / `node_rank.getD 0` below
  if nproc_per_node < 1 then .error (.nprocNotPositive nproc_per_node)
  else if nnodes.getD 1 < 1 then .error (.nnodesNotPositive (nnodes.getD 1))
  else if node_rank = none ∧ nnodes.getD 1 > 1 then .error .nodeRankRequired
  else if node_rank.getD 0 ≥ nnodes.getD 1 ∨ node_rank.getD 0 < 0 then
    .error (.nodeRankOutOfRange (nnodes.getD 1 - 1) (node_rank.getD 0))
  else if nnodes.getD 1 > 1 ∧ (master_addr = none ∨ master_port = none) then
    .error (.masterAddrPortRequired master_addr master_port)
  else
    .ok (dropNone (dictUpdateAll
      [("nproc_per_node", some (.int nproc_per_node)),
       ("nnodes", some (.int (nnodes.getD 1))),
       ("node_rank", some (.int (node_rank.getD 0))),
       ("master_addr", master_addr.map .str),
       ("master_port", master_port.map .int)] spawn_kwargs))

/-- The launcher instance after `__init__` succeeded. -/
structure Parallel where
  backend : Option String
  spawn_params : Option (List (String × PyVal))
  deriving DecidableEq, Repr

/-- The `(name, value)` pairs zipped in `__init__`'s backend-is-None check,
in source order. -/
def topologyArgs (nproc_per_node nnodes node_rank : Option Int)
    (master_addr : Option String) (master_port : Option Int) :
    List (String × Option PyVal) :=
  [("nproc_per_node", nproc_per_node.map .int),
   ("nnodes", nnodes.map .int),
   ("node_rank", node_rank.map .int),
   ("master_addr", master_addr.map .str),
   ("master_port", master_port.map .int)]

/-- The `for name, value in zip(...)` loop body: the first non-None value
triggers the error. -/
def firstGiven : List (String × Option PyVal) → Option (String × PyVal)
  | [] => none
  | (name, some v) :: _ => some (name, v)
  | (_, none) :: rest => firstGiven rest

/-- `Parallel.__init__`: returns the trace of collaborator calls and log
lines made during construction, and either the constructed instance or the
raised `ValueError`.  On the unknown-backend path `available_backends()` is
evaluated twice in the source (once for the membership test, once to format
the message). -/
def Parallel.construct (rt : Runtime) (backend : Option String)
    (nproc_per_node nnodes node_rank : Option Int)
    (master_addr : Option String) (master_port : Option Int)
    (spawn_kwargs : List (String × Option PyVal)) :
    List Event × Except LauncherError Parallel :=
  match backend with
  | some b =>
    if b ∈ rt.available_backends then
      match nproc_per_node with
      | some p =>
        match setup_spawn_params p nnodes node_rank master_addr master_port spawn_kwargs with
        | .error e => ([.availableBackends], .error e)
        | .ok params =>
          ([.availableBackends,
            .logInfo "Initialized distributed launcher with backend",
            .logInfo "Parameters to spawn processes"],
           .ok { backend := some b, spawn_params := some params })
      | none => ([.availableBackends], .ok { backend := some b, spawn_params := none })
    else
      ([.availableBackends, .availableBackends],
       .error (.unknownBackend b rt.available_backends))
  | none =>
    match firstGiven (topologyArgs nproc_per_node nnodes node_rank master_addr master_port) with
    | some (name, v) => ([], .error (.backendNoneArgGiven name v))
    | none => ([], .ok { backend := none, spawn_params := none })

/-- `Parallel.run`.  The entry point and `idist.spawn` are external: their
outcomes are the parameters `fnResult` and `spawnResult` (an exception or a
normal return).  The trace records collaborator calls, log lines and the
entry-point invocation; the returned `Except` is what `run` itself does
(propagate the exception unchanged, or return). -/
def Parallel.run (p : Parallel) (rt : Runtime)
    (spawnResult fnResult : Except String Unit) :
    List Event × Except String Unit :=
  match p.spawn_params with
  | some params =>
    let evs := [Event.logInfo "Spawn function", Event.spawn p.backend params]
    match spawnResult with
    | .error e => (evs, .error e)
    | .ok _ => (evs ++ [.logInfo "End of run"], .ok ())
  | none =>
    let evs := [Event.getWorldSize, Event.logInfo "Run func",
                Event.getLocalRank, Event.callFunc rt.local_rank]
    match fnResult with
    | .error e => (evs, .error e)
    | .ok _ => (evs ++ [.logInfo "End of run"], .ok ())

/-- `Parallel.__enter__` (trace of its actions). -/
def Parallel.enter (p : Parallel) : List Event :=
  match p.backend, p.spawn_params with
  | some b, none => [.initGroup b, .logInfo "Initialized processing group with backend"]
  | _, _ => []

/-- `Parallel.__exit__` (trace of its actions). -/
def Parallel.exit (p : Parallel) : List Event :=
  match p.backend, p.spawn_params with
  | some _, none => [.logInfo "Finalized processing group with backend", .finalizeGroup]
  | _, _ => []

/-- Python `with p: body` semantics: `__enter__` runs first, then the body,
and `__exit__` runs on every exit path (normal return or exception); since
`__exit__` returns `None`, a body exception propagates unchanged. -/
def Parallel.withScope (p : Parallel) (body : List Event × Except String Unit) :
    List Event × Except String Unit :=
  (p.enter ++ body.1 ++ p.exit, body.2)

/-- The five parameter names of `_setup_spawn_params` that `**spawn_kwargs`
can never rebind (Python keyword-binding makes them disjoint). -/
def reservedNames : List String :=
  ["nproc_per_node", "nnodes", "node_rank", "master_addr", "master_port"]

section Theorems

open Ignite

/-- Claim C3: the SpawnParams validation fails exactly when `nproc_per_node < 1`,
or `nnodes` (defaulting to 1) `< 1`, or `nnodes > 1` with `node_rank` absent,
or the (defaulted) `node_rank` lies outside `[0, nnodes)`, or `nnodes > 1`
with `master_addr` or `master_port` absent; otherwise it succeeds. -/
theorem setup_spawn_params_error_iff (nproc : Int) (nnodes node_rank : Option Int)
    (ma : Option String) (mp : Option Int) (kw : List (String × Option PyVal)) :
    (∃ e, setup_spawn_params nproc nnodes node_rank ma mp kw = .error e) ↔
      nproc < 1 ∨ nnodes.getD 1 < 1 ∨
      (nnodes.getD 1 > 1 ∧ node_rank = none) ∨
      node_rank.getD 0 < 0 ∨ node_rank.getD 0 ≥ nnodes.getD 1 ∨
      (nnodes.getD 1 > 1 ∧ (ma = none ∨ mp = none)) := by
  unfold setup_spawn_params
  split_ifs with h1 h2 h3 h4 h5 <;> simp_all <;>
    first
    | tauto
    | omega
    | (intro hgt hrank; have := h3 hrank; omega)

/-- Claim C5: whenever `backend` is present but not a member of the runtime's
available-backends set, construction fails with a configuration error. -/
theorem unknown_backend_fails (rt : Runtime) (b : String)
    (nproc nnodes node_rank : Option Int) (ma : Option String) (mp : Option Int)
    (kw : List (String × Option PyVal)) (h : b ∉ rt.available_backends) :
    (Parallel.construct rt (some b) nproc nnodes node_rank ma mp kw).2
      = .error (.unknownBackend b rt.available_backends) := by
  simp [Parallel.construct, h]

/-- Witness for `unknown_backend_fails` at a concrete runtime and backend. -/
theorem unknown_backend_fails_witness :
    "horovod" ∉ (Runtime.mk ["nccl", "gloo"] 1 0).available_backends ∧
    (Parallel.construct ⟨["nccl", "gloo"], 1, 0⟩ (some "horovod")
        none none none none none []).2
      = .error (.unknownBackend "horovod" ["nccl", "gloo"]) :=
  ⟨by decide,
   unknown_backend_fails ⟨["nccl", "gloo"], 1, 0⟩ "horovod"
     none none none none none [] (by decide)⟩

/-- Claim C4: when `backend` is absent and any of the five topology parameters
is non-absent, construction fails with a configuration error naming one of the
given (non-absent) parameters and its value. -/
theorem backend_none_param_given_fails (rt : Runtime)
    (nproc nnodes node_rank : Option Int) (ma : Option String) (mp : Option Int)
    (kw : List (String × Option PyVal))
    (h : nproc ≠ none ∨ nnodes ≠ none ∨ node_rank ≠ none ∨ ma ≠ none ∨ mp ≠ none) :
    ∃ name v, (Parallel.construct rt none nproc nnodes node_rank ma mp kw).2
        = .error (.backendNoneArgGiven name v) ∧
      (name, some v) ∈ topologyArgs nproc nnodes node_rank ma mp := by
  cases nproc <;> cases nnodes <;> cases node_rank <;> cases ma <;> cases mp <;>
    simp_all [Parallel.construct, topologyArgs, firstGiven] <;> tauto

/-- Witness for `backend_none_param_given_fails` at `node_rank = some 3`. -/
theorem backend_none_param_given_fails_witness :
    ((none : Option Int) ≠ none ∨ (none : Option Int) ≠ none ∨
      (some (3 : Int)) ≠ none ∨ (none : Option String) ≠ none ∨
      (none : Option Int) ≠ none) ∧
    ∃ name v, (Parallel.construct ⟨["nccl"], 1, 0⟩ none none none (some 3)
        none none []).2 = .error (.backendNoneArgGiven name v) ∧
      (name, some v) ∈ topologyArgs none none (some 3) none none :=
  ⟨by simp,
   backend_none_param_given_fails ⟨["nccl"], 1, 0⟩ none none (some 3)
     none none [] (by simp)⟩

/-- Claim C10: with `backend` absent and all five topology parameters absent,
construction succeeds no matter what extra keyword spawn options are passed,
and the result does not depend on them (they are silently ignored: never
validated and, since `spawn_params` is `none`, never forwarded). -/
theorem backend_none_extras_ignored (rt : Runtime)
    (kw kw2 : List (String × Option PyVal)) :
    Parallel.construct rt none none none none none none kw
      = ([], .ok { backend := none, spawn_params := none }) ∧
    Parallel.construct rt none none none none none none kw
      = Parallel.construct rt none none none none none none kw2 :=
  ⟨rfl, rfl⟩

/-- Claim C1: constructing with a valid backend and no `nproc_per_node`
(attach mode) yields a launcher whose enterScope calls `initializeGroup`
exactly once with that backend, whose run queries `getLocalRank` and calls
the entry point exactly once at the local rank, and whose exitScope calls
`finalizeGroup` exactly once; over the whole scoped use the group is
initialized and finalized exactly once each, even when the entry point
raised (`fnResult` is arbitrary, including an exception). -/
theorem attach_mode_scoped_lifecycle (rt : Runtime) (b : String)
    (hb : b ∈ rt.available_backends) (spawnResult fnResult : Except String Unit) :
    ∃ p : Parallel,
      (Parallel.construct rt (some b) none none none none none []).2 = .ok p ∧
      p.enter.filter Event.isInitGroup = [.initGroup b] ∧
      (p.run rt spawnResult fnResult).1.filter Event.isCallFunc
        = [.callFunc rt.local_rank] ∧
      Event.getLocalRank ∈ (p.run rt spawnResult fnResult).1 ∧
      p.exit.filter Event.isFinalizeGroup = [.finalizeGroup] ∧
      (p.withScope (p.run rt spawnResult fnResult)).1.filter Event.isGroupAction
        = [.initGroup b, .finalizeGroup] := by
  refine ⟨⟨some b, none⟩, ?_, ?_, ?_, ?_, ?_, ?_⟩ <;>
    cases fnResult <;>
    simp [Parallel.construct, hb, Parallel.enter, Parallel.exit, Parallel.run,
      Parallel.withScope, Event.isInitGroup, Event.isFinalizeGroup,
      Event.isCallFunc, Event.isGroupAction]

/-- Witness for `attach_mode_scoped_lifecycle`: backend "nccl" at a
concrete runtime, with the entry point raising an error. -/
theorem attach_mode_scoped_lifecycle_witness :
    "nccl" ∈ (Runtime.mk ["nccl"] 1 0).available_backends ∧
    ∃ p : Parallel,
      (Parallel.construct ⟨["nccl"], 1, 0⟩ (some "nccl") none none none none none []).2
        = .ok p ∧
      p.enter.filter Event.isInitGroup = [.initGroup "nccl"] ∧
      (p.run ⟨["nccl"], 1, 0⟩ (.ok ()) (.error "boom")).1.filter Event.isCallFunc
        = [.callFunc 0] ∧
      Event.getLocalRank ∈ (p.run ⟨["nccl"], 1, 0⟩ (.ok ()) (.error "boom")).1 ∧
      p.exit.filter Event.isFinalizeGroup = [.finalizeGroup] ∧
      (p.withScope (p.run ⟨["nccl"], 1, 0⟩ (.ok ()) (.error "boom"))).1.filter
          Event.isGroupAction = [.initGroup "nccl", .finalizeGroup] :=
  ⟨by decide,
   attach_mode_scoped_lifecycle ⟨["nccl"], 1, 0⟩ "nccl" (by decide)
     (.ok ()) (.error "boom")⟩

/-- Claim C2: in spawn mode (valid backend with `nproc_per_node` given and
validation succeeding) enterScope and exitScope are no-ops and run performs
no group action but delegates to `spawn` exactly once with the resolved
parameters; with backend absent enterScope/exitScope are also no-ops; and
`nproc_per_node = 4` with everything else absent resolves to exactly
`nproc_per_node: 4, nnodes: 1, node_rank: 0`. -/
theorem spawn_mode_frame (rt : Runtime) (b : String)
    (hb : b ∈ rt.available_backends) (nproc : Int) (nnodes node_rank : Option Int)
    (ma : Option String) (mp : Option Int) (kw : List (String × Option PyVal))
    (params : List (String × PyVal))
    (hsetup : setup_spawn_params nproc nnodes node_rank ma mp kw = .ok params)
    (spawnResult fnResult : Except String Unit) :
    (∃ p : Parallel,
      (Parallel.construct rt (some b) (some nproc) nnodes node_rank ma mp kw).2
        = .ok p ∧
      p.enter = [] ∧ p.exit = [] ∧
      (p.run rt spawnResult fnResult).1.filter Event.isSpawn
        = [.spawn (some b) params] ∧
      (p.run rt spawnResult fnResult).1.filter Event.isGroupAction = []) ∧
    (∃ q : Parallel,
      (Parallel.construct rt none none none none none none []).2 = .ok q ∧
      q.enter = [] ∧ q.exit = []) ∧
    setup_spawn_params 4 none none none none []
      = .ok [("nproc_per_node", .int 4), ("nnodes", .int 1), ("node_rank", .int 0)] := by
  refine ⟨⟨⟨some b, some params⟩, ?_, rfl, rfl, ?_, ?_⟩,
      ⟨⟨none, none⟩, rfl, rfl, rfl⟩, rfl⟩
  · simp [Parallel.construct, hb, hsetup]
  · cases spawnResult <;>
      simp [Parallel.run, Event.isSpawn]
  · cases spawnResult <;>
      simp [Parallel.run, Event.isGroupAction, Event.isInitGroup, Event.isFinalizeGroup]

/-- Witness for `spawn_mode_frame`: backend "gloo" with 4 processes per
node at a concrete runtime. -/
theorem spawn_mode_frame_witness :
    "gloo" ∈ (Runtime.mk ["gloo"] 4 0).available_backends ∧
    setup_spawn_params 4 none none none none []
      = .ok [("nproc_per_node", .int 4), ("nnodes", .int 1), ("node_rank", .int 0)] ∧
    (∃ p : Parallel,
      (Parallel.construct ⟨["gloo"], 4, 0⟩ (some "gloo") (some 4) none none none
          none []).2 = .ok p ∧
      p.enter = [] ∧ p.exit = [] ∧
      (p.run ⟨["gloo"], 4, 0⟩ (.ok ()) (.ok ())).1.filter Event.isSpawn
        = [.spawn (some "gloo")
            [("nproc_per_node", .int 4), ("nnodes", .int 1), ("node_rank", .int 0)]] ∧
      (p.run ⟨["gloo"], 4, 0⟩ (.ok ()) (.ok ())).1.filter Event.isGroupAction = []) :=
  ⟨by decide, rfl,
   (spawn_mode_frame ⟨["gloo"], 4, 0⟩ "gloo" (by decide) 4 none none none none []
     [("nproc_per_node", .int 4), ("nnodes", .int 1), ("node_rank", .int 0)]
     rfl (.ok ()) (.ok ())).1⟩

/-- Claim C8: run emits its start log before invoking the entry point
(attach mode) or spawn (spawn mode); the invocation's exception propagates
to run's caller unmodified; and the "End of run" log appears in the trace
exactly when the invocation returned normally. -/
theorem run_logs_and_propagates (p : Parallel) (rt : Runtime)
    (spawnResult fnResult : Except String Unit) :
    (match p.spawn_params with
     | some params => ∃ rest, (p.run rt spawnResult fnResult).1
         = .logInfo "Spawn function" :: .spawn p.backend params :: rest
     | none => ∃ rest, (p.run rt spawnResult fnResult).1
         = .getWorldSize :: .logInfo "Run func" :: .getLocalRank
             :: .callFunc rt.local_rank :: rest) ∧
    (p.run rt spawnResult fnResult).2
      = (match p.spawn_params with | some _ => spawnResult | none => fnResult) ∧
    (Event.logInfo "End of run" ∈ (p.run rt spawnResult fnResult).1
      ↔ (match p.spawn_params with | some _ => spawnResult | none => fnResult)
          = .ok ()) := by
  rcases p with ⟨bk, sp⟩
  cases sp <;> cases spawnResult <;> cases fnResult <;>
    simp [Parallel.run]

/-- Claim C6 counterexample: on an attach-mode launcher the source has no
Idle/GroupActive state check — entering twice produces two `initializeGroup`
calls and no error, so a second enterScope is not stopped. -/
theorem double_enter_counterexample :
    ((Parallel.construct ⟨["nccl"], 1, 0⟩ (some "nccl")
        none none none none none []).2.map
      (fun p => (p.enter ++ p.enter).filter Event.isInitGroup))
      = .ok [.initGroup "nccl", .initGroup "nccl"] := rfl

/-- Claim C6 (amended): the code contains no Idle/GroupActive guard: on an
attach-mode launcher (backend present, no spawn params) every enterScope
unconditionally calls `initializeGroup`, so a second enterScope invokes it a
second time with no error raised; avoiding double initialization is the
caller's obligation. -/
theorem double_enter_unguarded (p : Parallel) (b : String)
    (hb : p.backend = some b) (hs : p.spawn_params = none) :
    (p.enter ++ p.enter).filter Event.isInitGroup
      = [.initGroup b, .initGroup b] := by
  rcases p with ⟨bk, sp⟩
  subst hb hs
  simp [Parallel.enter, Event.isInitGroup]

/-- Witness for `double_enter_unguarded` at a concrete launcher. -/
theorem double_enter_unguarded_witness :
    (Parallel.mk (some "nccl") none).backend = some "nccl" ∧
    (Parallel.mk (some "nccl") none).spawn_params = none ∧
    ((Parallel.mk (some "nccl") none).enter
        ++ (Parallel.mk (some "nccl") none).enter).filter Event.isInitGroup
      = [.initGroup "nccl", .initGroup "nccl"] :=
  ⟨rfl, rfl, double_enter_unguarded ⟨some "nccl", none⟩ "nccl" rfl rfl⟩

/-- Claim C7 counterexample: for the invalid input backend "nccl" (valid),
`nproc_per_node = 8`, `nnodes = 2`, `node_rank` absent, construction raises
the configuration error, but `availableBackends` — a Runtime Abstraction
call — was already invoked before the error reached the caller. -/
theorem config_error_after_collaborator_call :
    (Parallel.construct ⟨["nccl"], 1, 0⟩ (some "nccl") (some 8) (some 2)
        none none none []).2 = .error .nodeRankRequired ∧
    Event.availableBackends
      ∈ (Parallel.construct ⟨["nccl"], 1, 0⟩ (some "nccl") (some 8) (some 2)
          none none none []).1 :=
  ⟨rfl, by simp [Parallel.construct, setup_spawn_params]⟩

/-- Claim C7 (amended): every construction failure is raised before any
distributed action — the construction trace on an error path contains no
`spawn`, `initializeGroup`, `finalizeGroup`, `getWorldSize` or
`getLocalRank` call (its only events, if any, are `availableBackends`
queries, which are made first whenever `backend` is present). -/
theorem construct_error_only_backend_query (rt : Runtime)
    (backend : Option String) (nproc nnodes node_rank : Option Int)
    (ma : Option String) (mp : Option Int) (kw : List (String × Option PyVal))
    (evs : List Event) (e : LauncherError)
    (h : Parallel.construct rt backend nproc nnodes node_rank ma mp kw
        = (evs, .error e)) :
    ∀ ev ∈ evs, ev = .availableBackends := by
  unfold Parallel.construct at h
  repeat' split at h
  all_goals
    simp only [Prod.mk.injEq] at h
  all_goals
    first
    | exact Except.noConfusion h.2
    | (obtain ⟨rfl, -⟩ := h; simp)

/-- Witness for `construct_error_only_backend_query` at a concrete invalid
input. -/
theorem construct_error_only_backend_query_witness :
    Parallel.construct ⟨["nccl"], 1, 0⟩ (some "nccl") (some 8) (some 2)
        none none none []
      = ([.availableBackends], .error .nodeRankRequired) ∧
    ∀ ev ∈ [Event.availableBackends], ev = Event.availableBackends :=
  ⟨rfl,
   construct_error_only_backend_query ⟨["nccl"], 1, 0⟩ (some "nccl") (some 8)
     (some 2) none none none [] [.availableBackends] .nodeRankRequired rfl⟩

/-- `dict.update` with a fresh key appends. -/
theorem dictUpdate_of_not_mem (d : List (String × Option PyVal))
    (kv : String × Option PyVal) (h : ∀ q ∈ d, q.1 ≠ kv.1) :
    dictUpdate d kv = d ++ [kv] := by
  unfold dictUpdate
  rw [if_neg]
  simp only [List.any_eq_true, decide_eq_true_eq, not_exists]
  exact fun q hq => h q hq.1 hq.2

/-- `dict.update` with keys all fresh and pairwise distinct appends. -/
theorem dictUpdateAll_append (d kws : List (String × Option PyVal))
    (hdisj : ∀ kv ∈ kws, ∀ q ∈ d, q.1 ≠ kv.1)
    (hnodup : (kws.map Prod.fst).Nodup) :
    dictUpdateAll d kws = d ++ kws := by
  induction kws generalizing d with
  | nil => simp [dictUpdateAll]
  | cons kv rest ih =>
    simp only [List.map_cons, List.nodup_cons] at hnodup
    have h1 : dictUpdate d kv = d ++ [kv] :=
      dictUpdate_of_not_mem d kv (fun q hq => hdisj kv (by simp) q hq)
    have h2 : dictUpdateAll (d ++ [kv]) rest = (d ++ [kv]) ++ rest := by
      refine ih (d ++ [kv]) ?_ hnodup.2
      intro p hp q hq
      rcases List.mem_append.mp hq with hq | hq
      · exact hdisj p (List.mem_cons_of_mem kv hp) q hq
      · have hqkv : q = kv := by simpa using hq
        subst hqkv
        intro hEq
        exact hnodup.1 (hEq ▸ List.mem_map_of_mem Prod.fst hp)
    calc dictUpdateAll d (kv :: rest)
        = dictUpdateAll (dictUpdate d kv) rest := rfl
      _ = dictUpdateAll (d ++ [kv]) rest := by rw [h1]
      _ = (d ++ [kv]) ++ rest := h2
      _ = d ++ (kv :: rest) := by simp

/-- Dropping `None` values distributes over append. -/
theorem dropNone_append (a b : List (String × Option PyVal)) :
    dropNone (a ++ b) = dropNone a ++ dropNone b := by
  simp [dropNone, List.filterMap_append]

/-- Pre-filtering to the `Some`-valued entries does not change the result of
dropping `None` values. -/
theorem dropNone_filter (l : List (String × Option PyVal)) :
    dropNone (l.filter fun kv => kv.2.isSome) = dropNone l := by
  induction l with
  | nil => rfl
  | cons kv rest ih =>
    rcases kv with ⟨k, v⟩
    cases v <;> (simp [dropNone, List.filter_cons] at ih ⊢; exact ih)

/-- Claim C9: the SpawnParams validation is pure and idempotent — on any
accepted input, feeding the resolved fields (the defaulted `nnodes` and
`node_rank`, the retained `master_addr`/`master_port`, and the retained
passthrough extras) back through validation succeeds and returns the same
resolved map.  The extras' keys are those of Python `**kwargs`: distinct and
disjoint from the five named parameters. -/
theorem setup_spawn_params_idem (nproc : Int) (nnodes node_rank : Option Int)
    (ma : Option String) (mp : Option Int) (kw : List (String × Option PyVal))
    (m : List (String × PyVal))
    (hkeys : ∀ kv ∈ kw, kv.1 ∉ reservedNames)
    (hnodup : (kw.map Prod.fst).Nodup)
    (h : setup_spawn_params nproc nnodes node_rank ma mp kw = .ok m) :
    setup_spawn_params nproc (some (nnodes.getD 1)) (some (node_rank.getD 0))
      ma mp (kw.filter fun kv => kv.2.isSome) = .ok m := by
  unfold setup_spawn_params at h ⊢
  split_ifs at h with h1 h2 h3 h4 h5
  rw [if_neg h1]
  simp only [Option.getD_some]
  rw [if_neg h2, if_neg (by simp), if_neg h4, if_neg h5]
  injection h with hm
  have hqmem : ∀ q ∈ ([("nproc_per_node", some (PyVal.int nproc)),
       ("nnodes", some (PyVal.int (nnodes.getD 1))),
       ("node_rank", some (PyVal.int (node_rank.getD 0))),
       ("master_addr", ma.map PyVal.str),
       ("master_port", mp.map PyVal.int)] : List (String × Option PyVal)),
      q.1 ∈ reservedNames := by
    intro q hq
    fin_cases hq <;> simp [reservedNames]
  have hdisj : ∀ kv ∈ kw, ∀ q ∈ ([("nproc_per_node", some (PyVal.int nproc)),
       ("nnodes", some (PyVal.int (nnodes.getD 1))),
       ("node_rank", some (PyVal.int (node_rank.getD 0))),
       ("master_addr", ma.map PyVal.str),
       ("master_port", mp.map PyVal.int)] : List (String × Option PyVal)),
      q.1 ≠ kv.1 :=
    fun kv hkv q hq hEq => hkeys kv hkv (hEq ▸ hqmem q hq)
  have hA := dictUpdateAll_append _ kw
    (fun kv hkv q hq => hdisj kv hkv q hq) hnodup
  have hB := dictUpdateAll_append _ (kw.filter fun kv => kv.2.isSome)
    (fun kv hkv q hq => hdisj kv (List.mem_of_mem_filter hkv) q hq)
    (hnodup.sublist ((kw.filter_sublist).map Prod.fst))
  rw [hB, dropNone_append, dropNone_filter, ← dropNone_append, ← hA, hm]

/-- Witness for `setup_spawn_params_idem` at a concrete accepted input with
one retained extra and one dropped (`None`-valued) extra. -/
theorem setup_spawn_params_idem_witness :
    (∀ kv ∈ ([("foo", some (PyVal.int 7)), ("bar", none)] :
        List (String × Option PyVal)), kv.1 ∉ reservedNames) ∧
    setup_spawn_params 2 (some 2) (some 0) (some "host") (some 1234)
        [("foo", some (.int 7)), ("bar", none)]
      = .ok [("nproc_per_node", .int 2), ("nnodes", .int 2), ("node_rank", .int 0),
             ("master_addr", .str "host"), ("master_port", .int 1234),
             ("foo", .int 7)] ∧
    setup_spawn_params 2 (some 2) (some 0) (some "host") (some 1234)
        [("foo", some (.int 7))]
      = .ok [("nproc_per_node", .int 2), ("nnodes", .int 2), ("node_rank", .int 0),
             ("master_addr", .str "host"), ("master_port", .int 1234),
             ("foo", .int 7)] :=
  ⟨by decide, rfl,
   setup_spawn_params_idem 2 (some 2) (some 0) (some "host") (some 1234)
     [("foo", some (.int 7)), ("bar", none)]
     [("nproc_per_node", .int 2), ("nnodes", .int 2), ("node_rank", .int 0),
      ("master_addr", .str "host"), ("master_port", .int 1234), ("foo", .int 7)]
     (by decide) (by decide) rfl⟩

end Theorems

end Ignite
